import Mathlib

/-!
Verification of the open-meteo weather aggregation pipeline
(src/src/weather_data_extraction.py together with src/src/consts.py).

The pandas pipeline is shallowly embedded over Lean lists:

* a dataframe is a `List` of row structures;
* `explode` over parallel per-location arrays becomes `List.zip` and `map`;
* `groupby(...).agg(mean)` becomes: one output row per deduplicated group
  key, with the arithmetic mean of the group's `temperature_2m` values
  (pandas never creates an empty group, and no claim depends on the
  sorted order groupby gives the keys, so keys are kept in first-occurrence
  order);
* `merge(how="inner", on=...)` becomes a flatMap over the left frame,
  filtering the right frame on the join key — inner-join semantics with the
  left frame's ordering, as pandas produces;
* floats are modelled as exact rationals (ℚ): every claim under study is
  about filtering, joining, row provenance and window membership, none
  turns on IEEE rounding;
* the effectful collaborators (the geocoder and the two HTTP responses)
  are explicit inputs, and fallible steps return `Except`.
-/

namespace OpenMeteo

/-! ## Constants (src/src/consts.py) -/

def DAYS_LOOKUP : Nat := 8

def ELEVATION_THRESHOLD : ℚ := 50

def AVERAGE_TEMP_THRESHOLD : ℚ := 20

/-! ## Error model

The repository defines no exception classes: a geocoding miss surfaces as
the attribute error raised on `location.latitude` when `geocode` returns
`None`, and a failed fetch as the `RuntimeError` raised in
`get_raw_weather_df`.  Both abort the run; we give them the taxonomy names
the spec uses. -/

inductive PipelineError where
  | resolution (city : String)
  | fetch (message : String)
deriving DecidableEq

/-! ## Coordinate resolver (create_coordinates_dict) -/

structure GeoLocation where
  latitude : ℚ
  longitude : ℚ
deriving DecidableEq

/-- Embedding of `create_coordinates_dict`: walks the city list in order,
appending each geocoded latitude and longitude; the first city the geocoder
cannot resolve aborts the run (in Python, accessing `.latitude` on `None`
raises before anything is appended for that city). -/
def create_coordinates_dict (geocode : String → Option GeoLocation) :
    List String → Except PipelineError (List ℚ × List ℚ)
  | [] => .ok ([], [])
  | city :: rest =>
    match geocode city with
    | none => .error (.resolution city)
    | some loc =>
      match create_coordinates_dict geocode rest with
      | .error e => .error e
      | .ok (lats, lots) => .ok (loc.latitude :: lats, loc.longitude :: lots)

/-! ## Weather fetcher (get_raw_weather_df), main-forecast instantiation

`pd.json_normalize` of the open-meteo body yields one row per requested
location, with scalar fields and the parallel hourly arrays as list-valued
cells; `.loc[:, GEO_FIELDS]` keeps latitude, longitude, elevation,
timezone_abbreviation, hourly.temperature_2m, hourly.time, and the dotted
prefixes are stripped.  `RawLocation` is that row. -/

structure RawLocation where
  latitude : ℚ
  longitude : ℚ
  elevation : ℚ
  timezone_abbreviation : String
  time : List Int
  temperature_2m : List ℚ
deriving DecidableEq

/-- An HTTP response: status, body text, and the parsed JSON rows.
`requests.Response.ok` is `status_code < 400`. -/
structure Response where
  status_code : Nat
  text : String
  json : List RawLocation
deriving DecidableEq

def Response.ok (r : Response) : Bool := decide (r.status_code < 400)

/-- `astype(str)` on the latitude/longitude columns. -/
def coordinateString (q : ℚ) : String := toString q

/-- A location row after `astype(str)` on the coordinate columns and before
`explode`. -/
structure CoercedLocation where
  latitude : String
  longitude : String
  elevation : ℚ
  timezone_abbreviation : String
  time : List Int
  temperature_2m : List ℚ
deriving DecidableEq

def coerceCoordinates (loc : RawLocation) : CoercedLocation :=
  { latitude := coordinateString loc.latitude
    longitude := coordinateString loc.longitude
    elevation := loc.elevation
    timezone_abbreviation := loc.timezone_abbreviation
    time := loc.time
    temperature_2m := loc.temperature_2m }

/-- One exploded observation row of the main weather frame. -/
structure WeatherRow where
  latitude : String
  longitude : String
  elevation : ℚ
  timezone_abbreviation : String
  time : Int
  temperature_2m : ℚ
deriving DecidableEq

/-- `explode(['time', 'temperature_2m'])`: one row per position of the
parallel arrays, scalar columns broadcast. -/
def explodeRows (loc : CoercedLocation) : List WeatherRow :=
  (loc.time.zip loc.temperature_2m).map fun p =>
    { latitude := loc.latitude
      longitude := loc.longitude
      elevation := loc.elevation
      timezone_abbreviation := loc.timezone_abbreviation
      time := p.1
      temperature_2m := p.2 }

/-- Embedding of `get_raw_weather_df` as called for the main forecast:
on a non-ok response it raises carrying `response.text` inside the message
(the Python f-string interpolates `response.text`, not the status code);
otherwise it selects the required fields, coerces latitude/longitude to
strings, and explodes the parallel hourly arrays. -/
def get_raw_weather_df (response : Response) : Except PipelineError (List WeatherRow) :=
  if response.ok then
    .ok ((response.json.map coerceCoordinates).flatMap explodeRows)
  else
    .error (.fetch ("Request failed with status code " ++ response.text))

/-! ## Weather fetcher, historical instantiation (HISTORICAL_FIELDS)

For the historical call, `required_fields` keeps latitude, longitude,
elevation and the three hourly arrays (temperature, relative humidity,
wind speed); `inner_fields` explodes those three parallel arrays. -/

structure HistRawLocation where
  latitude : ℚ
  longitude : ℚ
  elevation : ℚ
  temperature_2m : List ℚ
  relative_humidity_2m : List ℚ
  wind_speed_10m : List ℚ
deriving DecidableEq

structure HistResponse where
  status_code : Nat
  text : String
  json : List HistRawLocation
deriving DecidableEq

def HistResponse.ok (r : HistResponse) : Bool := decide (r.status_code < 400)

/-- One exploded row of the raw historical frame. -/
structure HistRow where
  latitude : String
  longitude : String
  elevation : ℚ
  temperature_2m : ℚ
  relative_humidity_2m : ℚ
  wind_speed_10m : ℚ
deriving DecidableEq

def explodeHistRows (loc : HistRawLocation) : List HistRow :=
  ((loc.temperature_2m.zip loc.relative_humidity_2m).zip loc.wind_speed_10m).map fun p =>
    { latitude := coordinateString loc.latitude
      longitude := coordinateString loc.longitude
      elevation := loc.elevation
      temperature_2m := p.1.1
      relative_humidity_2m := p.1.2
      wind_speed_10m := p.2 }

/-- Embedding of `get_raw_weather_df` as called for the historical
snapshot. -/
def get_raw_weather_df_hist (response : HistResponse) :
    Except PipelineError (List HistRow) :=
  if response.ok then
    .ok (response.json.flatMap explodeHistRows)
  else
    .error (.fetch ("Request failed with status code " ++ response.text))

/-! ## Aggregation engine (load_aggregate_weather_data)

`grouping_cols = ['latitude', 'longitude', 'elevation']`. -/

structure LocKey where
  latitude : String
  longitude : String
  elevation : ℚ
deriving DecidableEq

def WeatherRow.key (r : WeatherRow) : LocKey :=
  ⟨r.latitude, r.longitude, r.elevation⟩

/-- A row of `avg_temps_last_week` (groupby result, renamed column). -/
structure AvgTempRow where
  latitude : String
  longitude : String
  elevation : ℚ
  avg_temp_last_week : ℚ
deriving DecidableEq

def AvgTempRow.key (a : AvgTempRow) : LocKey :=
  ⟨a.latitude, a.longitude, a.elevation⟩

/-- Arithmetic mean; pandas only ever applies it to nonempty groups. -/
def meanList (xs : List ℚ) : ℚ := xs.sum / xs.length

/-- `weather_df.loc[weather_df['time'] < today_midnight]`. -/
def last_week_df (df : List WeatherRow) (today_midnight : Int) : List WeatherRow :=
  df.filter fun r => decide (r.time < today_midnight)

/-- `groupby(grouping_cols).agg({'temperature_2m': 'mean'})` renamed to
`avg_temp_last_week`: one row per distinct key, carrying the mean
temperature of that key's rows. -/
def avg_temps_of (rows : List WeatherRow) : List AvgTempRow :=
  ((rows.map WeatherRow.key).dedup).map fun k =>
    { latitude := k.latitude
      longitude := k.longitude
      elevation := k.elevation
      avg_temp_last_week :=
        meanList ((rows.filter fun r => decide (WeatherRow.key r = k)).map
          WeatherRow.temperature_2m) }

/-- The selection gate of lines 115-118:
`avg_temp_last_week < AVERAGE_TEMP_THRESHOLD ∧ elevation > ELEVATION_THRESHOLD`. -/
def gate (a : AvgTempRow) : Bool :=
  decide (a.avg_temp_last_week < AVERAGE_TEMP_THRESHOLD) &&
    decide (a.elevation > ELEVATION_THRESHOLD)

def filtered_temps_of (avgs : List AvgTempRow) : List AvgTempRow :=
  avgs.filter gate

/-- A row of `filtered_weather_df` after the inner merge: every column of
`weather_df` plus `avg_temp_last_week` from `filtered_temps`. -/
structure MergedRow where
  latitude : String
  longitude : String
  elevation : ℚ
  timezone_abbreviation : String
  time : Int
  temperature_2m : ℚ
  avg_temp_last_week : ℚ
deriving DecidableEq

def MergedRow.key (r : MergedRow) : LocKey :=
  ⟨r.latitude, r.longitude, r.elevation⟩

def mkMergedRow (w : WeatherRow) (a : AvgTempRow) : MergedRow :=
  { latitude := w.latitude
    longitude := w.longitude
    elevation := w.elevation
    timezone_abbreviation := w.timezone_abbreviation
    time := w.time
    temperature_2m := w.temperature_2m
    avg_temp_last_week := a.avg_temp_last_week }

/-- `pd.merge(weather_df, filtered_temps, how="inner", on=grouping_cols)`:
left-frame order, one output row per matching pair. -/
def merge_on_location (df : List WeatherRow) (filt : List AvgTempRow) :
    List MergedRow :=
  df.flatMap fun w =>
    (filt.filter fun a => decide (AvgTempRow.key a = WeatherRow.key w)).map
      fun a => mkMergedRow w a

/-- `filtered_weather_df.loc[filtered_weather_df['time'] >= today_midnight]`. -/
def future_df (merged : List MergedRow) (today_midnight : Int) : List MergedRow :=
  merged.filter fun r => decide (r.time ≥ today_midnight)

/-- The stage-B grouping key: every column of the (time-dropped) merged
frame except `temperature_2m`. -/
structure FullKey where
  latitude : String
  longitude : String
  elevation : ℚ
  timezone_abbreviation : String
  avg_temp_last_week : ℚ
deriving DecidableEq

def MergedRow.fullKey (r : MergedRow) : FullKey :=
  ⟨r.latitude, r.longitude, r.elevation, r.timezone_abbreviation,
    r.avg_temp_last_week⟩

/-- A row of the table `load_aggregate_weather_data` returns
(`timezone_abbreviation` renamed to `timezone`, mean renamed to
`avg_temp_next_week`). -/
structure AggRow where
  latitude : String
  longitude : String
  elevation : ℚ
  timezone : String
  avg_temp_last_week : ℚ
  avg_temp_next_week : ℚ
deriving DecidableEq

def AggRow.key (o : AggRow) : LocKey :=
  ⟨o.latitude, o.longitude, o.elevation⟩

/-- The Python local `filtered_temps`: stage-A mean over the past window
followed by the selection gate. -/
def filtered_temps_df (df : List WeatherRow) (today_midnight : Int) : List AvgTempRow :=
  filtered_temps_of (avg_temps_of (last_week_df df today_midnight))

/-- The Python local `aggregated_df` (before its groupby): the re-joined
frame restricted to the future window.  Dropping the `time` column happens
in the model at `MergedRow.fullKey`, which never reads it. -/
def aggregated_df (df : List WeatherRow) (today_midnight : Int) : List MergedRow :=
  future_df (merge_on_location df (filtered_temps_df df today_midnight)) today_midnight

/-- One output row of the stage-B groupby for group key `k` over the
future frame. -/
def mkAggRow (future : List MergedRow) (k : FullKey) : AggRow :=
  { latitude := k.latitude
    longitude := k.longitude
    elevation := k.elevation
    timezone := k.timezone_abbreviation
    avg_temp_last_week := k.avg_temp_last_week
    avg_temp_next_week :=
      meanList ((future.filter fun r => decide (MergedRow.fullKey r = k)).map
        MergedRow.temperature_2m) }

/-- The pure aggregation core of `load_aggregate_weather_data` (everything
after the fetch): stage-A mean over the past window, the selection gate,
the re-join, and the stage-B mean over the future window grouped by every
non-temperature column. -/
def aggregate_weather (df : List WeatherRow) (today_midnight : Int) : List AggRow :=
  (((aggregated_df df today_midnight).map MergedRow.fullKey).dedup).map
    (mkAggRow (aggregated_df df today_midnight))

/-- Embedding of `load_aggregate_weather_data`: geocodes the city list
(the coordinates only parameterize the outbound request, whose response is
the explicit `response` input), fetches and explodes the raw frame, then
runs the two-stage aggregation around `today_midnight`
(`pd.to_datetime('today').normalize()`). -/
def load_aggregate_weather_data (geocode : String → Option GeoLocation)
    (cities : List String) (response : Response) (today_midnight : Int) :
    Except PipelineError (List AggRow) :=
  match create_coordinates_dict geocode cities with
  | .error e => .error e
  | .ok _ =>
    match get_raw_weather_df response with
    | .error e => .error e
    | .ok df => .ok (aggregate_weather df today_midnight)

/-! ## Historical enrichment (append_historical_data) -/

/-- `historical_weather_df` after the rename to `year_start_*` and the
column projection. -/
structure HistoricalRow where
  latitude : String
  longitude : String
  year_start_temp : ℚ
  year_start_humidity : ℚ
  year_start_wind_speed : ℚ
deriving DecidableEq

def toHistoricalRow (h : HistRow) : HistoricalRow :=
  { latitude := h.latitude
    longitude := h.longitude
    year_start_temp := h.temperature_2m
    year_start_humidity := h.relative_humidity_2m
    year_start_wind_speed := h.wind_speed_10m }

/-- The final joined frame. -/
structure FinalRow where
  latitude : String
  longitude : String
  elevation : ℚ
  timezone : String
  avg_temp_last_week : ℚ
  avg_temp_next_week : ℚ
  year_start_temp : ℚ
  year_start_humidity : ℚ
  year_start_wind_speed : ℚ
deriving DecidableEq

def mkFinalRow (a : AggRow) (h : HistoricalRow) : FinalRow :=
  { latitude := a.latitude
    longitude := a.longitude
    elevation := a.elevation
    timezone := a.timezone
    avg_temp_last_week := a.avg_temp_last_week
    avg_temp_next_week := a.avg_temp_next_week
    year_start_temp := h.year_start_temp
    year_start_humidity := h.year_start_humidity
    year_start_wind_speed := h.year_start_wind_speed }

/-- Embedding of `append_historical_data`: fetches the historical frame,
renames and projects its columns, and inner-joins it onto the aggregated
frame on `['latitude', 'longitude']`. -/
def append_historical_data (aggregated : List AggRow) (response : HistResponse) :
    Except PipelineError (List FinalRow) :=
  match get_raw_weather_df_hist response with
  | .error e => .error e
  | .ok hist =>
    let historical := hist.map toHistoricalRow
    .ok (aggregated.flatMap fun a =>
      (historical.filter fun h =>
        decide (h.latitude = a.latitude ∧ h.longitude = a.longitude)).map
        fun h => mkFinalRow a h)

/-! ## Output splitter (get_weather_data) -/

structure CityRecord where
  latitude : String
  longitude : String
  elevation : ℚ
  timezone : String
deriving DecidableEq

structure WeatherInsightRecord where
  latitude : String
  longitude : String
  avg_temp_last_week : ℚ
  avg_temp_next_week : ℚ
  year_start_temp : ℚ
  year_start_humidity : ℚ
  year_start_wind_speed : ℚ
deriving DecidableEq

def FinalRow.toCity (f : FinalRow) : CityRecord :=
  ⟨f.latitude, f.longitude, f.elevation, f.timezone⟩

def FinalRow.toInsight (f : FinalRow) : WeatherInsightRecord :=
  ⟨f.latitude, f.longitude, f.avg_temp_last_week, f.avg_temp_next_week,
    f.year_start_temp, f.year_start_humidity, f.year_start_wind_speed⟩

/-- Embedding of `get_weather_data`: runs the aggregation, appends the
historical data, and projects the final frame into the two destination
schemas. -/
def get_weather_data (geocode : String → Option GeoLocation)
    (cities : List String) (response : Response) (histResponse : HistResponse)
    (today_midnight : Int) :
    Except PipelineError (List CityRecord × List WeatherInsightRecord) :=
  match load_aggregate_weather_data geocode cities response today_midnight with
  | .error e => .error e
  | .ok aggregated =>
    match append_historical_data aggregated histResponse with
    | .error e => .error e
    | .ok final => .ok (final.map FinalRow.toCity, final.map FinalRow.toInsight)

/-! ## Derived vocabulary used by the statements -/

/-- A location key passes the selection gate of the run when it survives
`filtered_temps` (its past-window mean is below the temperature threshold
and its elevation above the elevation threshold). -/
def passes_gate (df : List WeatherRow) (today_midnight : Int) (k : LocKey) : Prop :=
  k ∈ (filtered_temps_df df today_midnight).map AvgTempRow.key

/-- The future-window observation rows of one location. -/
def futureRows (df : List WeatherRow) (today_midnight : Int) (k : LocKey) :
    List WeatherRow :=
  df.filter fun r => decide (WeatherRow.key r = k ∧ today_midnight ≤ r.time)

/-! ## A concrete run, used to witness the claim theorems

One city, one location at coordinates (10, 20), elevation 100, one past
sample (temperature 10) and two future samples (12 and 14) around local
midnight 0, and a matching one-hour historical snapshot. -/

def exGeocode : String → Option GeoLocation := fun c =>
  if c = "Kyiv" then some ⟨10, 20⟩ else none

def exLoc : RawLocation :=
  { latitude := 10, longitude := 20, elevation := 100,
    timezone_abbreviation := "EET", time := [-1, 0, 1],
    temperature_2m := [10, 12, 14] }

def exResp : Response := { status_code := 200, text := "", json := [exLoc] }

def exHistLoc : HistRawLocation :=
  { latitude := 10, longitude := 20, elevation := 100,
    temperature_2m := [3], relative_humidity_2m := [80], wind_speed_10m := [12] }

def exHistResp : HistResponse := { status_code := 200, text := "", json := [exHistLoc] }

def exRow (t : Int) (temp : ℚ) : WeatherRow :=
  { latitude := "10", longitude := "20", elevation := 100,
    timezone_abbreviation := "EET", time := t, temperature_2m := temp }

def exRows : List WeatherRow := [exRow (-1) 10, exRow 0 12, exRow 1 14]

def exKey : LocKey := ⟨"10", "20", 100⟩

def exAggRow : AggRow :=
  { latitude := "10", longitude := "20", elevation := 100, timezone := "EET",
    avg_temp_last_week := 10, avg_temp_next_week := 13 }

def exCity : CityRecord :=
  { latitude := "10", longitude := "20", elevation := 100, timezone := "EET" }

def exInsight : WeatherInsightRecord :=
  { latitude := "10", longitude := "20", avg_temp_last_week := 10,
    avg_temp_next_week := 13, year_start_temp := 3, year_start_humidity := 80,
    year_start_wind_speed := 12 }

def exMerged : MergedRow :=
  { latitude := "10", longitude := "20", elevation := 100,
    timezone_abbreviation := "EET", time := 0, temperature_2m := 12,
    avg_temp_last_week := 10 }

def exBadResp : Response :=
  { status_code := 503, text := "Service Unavailable", json := [] }

def exHistRow : HistRow :=
  { latitude := "10", longitude := "20", elevation := 100,
    temperature_2m := 3, relative_humidity_2m := 80, wind_speed_10m := 12 }

def exHistRows : List HistRow := [exHistRow]

/-- A second scenario: the first location as before, plus a second
location at (30, 40) that passes the gate but has a single past sample and
no future samples at all. -/
def exLocB : RawLocation :=
  { latitude := 30, longitude := 40, elevation := 100,
    timezone_abbreviation := "CET", time := [-1], temperature_2m := [10] }

def exRespB : Response :=
  { status_code := 200, text := "", json := [exLoc, exLocB] }

def exRowB : WeatherRow :=
  { latitude := "30", longitude := "40", elevation := 100,
    timezone_abbreviation := "CET", time := -1, temperature_2m := 10 }

def exRowsB : List WeatherRow := [exRow (-1) 10, exRow 0 12, exRow 1 14, exRowB]

def exKeyB : LocKey := ⟨"30", "40", 100⟩

/-! ## Membership characterizations -/

theorem mem_last_week_df {df : List WeatherRow} {m : Int} {r : WeatherRow} :
    r ∈ last_week_df df m ↔ r ∈ df ∧ r.time < m := by
  simp [last_week_df, List.mem_filter]

theorem mem_future_df {mg : List MergedRow} {m : Int} {x : MergedRow} :
    x ∈ future_df mg m ↔ x ∈ mg ∧ m ≤ x.time := by
  simp [future_df, List.mem_filter, ge_iff_le]

theorem mem_merge_on_location {df : List WeatherRow} {filt : List AvgTempRow}
    {r : MergedRow} :
    r ∈ merge_on_location df filt ↔
      ∃ w ∈ df, ∃ a ∈ filt, AvgTempRow.key a = WeatherRow.key w ∧
        r = mkMergedRow w a := by
  simp [merge_on_location, List.mem_flatMap, List.mem_map, List.mem_filter]
  constructor
  · rintro ⟨w, hw, a, ⟨ha, hkey⟩, hr⟩
    exact ⟨w, hw, a, ha, hkey, hr.symm⟩
  · rintro ⟨w, hw, a, ha, hkey, hr⟩
    exact ⟨w, hw, a, ⟨ha, hkey⟩, hr.symm⟩

theorem mem_aggregate_weather {df : List WeatherRow} {m : Int} {o : AggRow} :
    o ∈ aggregate_weather df m ↔
      ∃ k, k ∈ (aggregated_df df m).map MergedRow.fullKey ∧
        o = mkAggRow (aggregated_df df m) k := by
  simp [aggregate_weather, List.mem_map, List.mem_dedup]
  constructor
  · rintro ⟨a, ha, h⟩
    exact ⟨a, ha, h.symm⟩
  · rintro ⟨a, ha, h⟩
    exact ⟨a, ha, h.symm⟩

theorem mem_futureRows {df : List WeatherRow} {m : Int} {k : LocKey}
    {r : WeatherRow} :
    r ∈ futureRows df m k ↔ r ∈ df ∧ WeatherRow.key r = k ∧ m ≤ r.time := by
  simp [futureRows, List.mem_filter, and_assoc]

theorem mem_joined {agg : List AggRow} {historical : List HistoricalRow}
    {f : FinalRow} :
    (f ∈ agg.flatMap fun a =>
        (historical.filter fun h =>
          decide (h.latitude = a.latitude ∧ h.longitude = a.longitude)).map
          fun h => mkFinalRow a h) ↔
      ∃ a ∈ agg, ∃ h ∈ historical,
        h.latitude = a.latitude ∧ h.longitude = a.longitude ∧
          f = mkFinalRow a h := by
  simp [List.mem_flatMap, List.mem_map, List.mem_filter]
  constructor
  · rintro ⟨a, ha, h, ⟨hh, h1, h2⟩, hf⟩
    exact ⟨a, ha, h, hh, h1, h2, hf.symm⟩
  · rintro ⟨a, ha, h, hh, h1, h2, hf⟩
    exact ⟨a, ha, h, ⟨hh, h1, h2⟩, hf.symm⟩

/-! ## Success-case inversions of the effectful stages -/

theorem get_raw_ok {resp : Response} {rows : List WeatherRow}
    (h : get_raw_weather_df resp = .ok rows) :
    rows = (resp.json.map coerceCoordinates).flatMap explodeRows := by
  by_cases hok : resp.ok
  · simpa [get_raw_weather_df, hok] using h.symm
  · simp [get_raw_weather_df, hok] at h

theorem get_raw_hist_ok {resp : HistResponse} {rows : List HistRow}
    (h : get_raw_weather_df_hist resp = .ok rows) :
    rows = resp.json.flatMap explodeHistRows := by
  by_cases hok : resp.ok
  · simpa [get_raw_weather_df_hist, hok] using h.symm
  · simp [get_raw_weather_df_hist, hok] at h

theorem load_aggregate_ok {geocode : String → Option GeoLocation}
    {cities : List String} {resp : Response} {m : Int} {t : List AggRow}
    (h : load_aggregate_weather_data geocode cities resp m = .ok t) :
    ∃ df, get_raw_weather_df resp = .ok df ∧ t = aggregate_weather df m := by
  unfold load_aggregate_weather_data at h
  cases hc : create_coordinates_dict geocode cities with
  | error e => rw [hc] at h; exact absurd h (by simp)
  | ok c =>
    rw [hc] at h
    cases hr : get_raw_weather_df resp with
    | error e => rw [hr] at h; exact absurd h (by simp)
    | ok df =>
      rw [hr] at h
      exact ⟨df, rfl, by injection h with h; exact h.symm⟩

theorem append_historical_ok {agg : List AggRow} {resp : HistResponse}
    {final : List FinalRow}
    (h : append_historical_data agg resp = .ok final) :
    ∃ hrows, get_raw_weather_df_hist resp = .ok hrows ∧
      final = agg.flatMap fun a =>
        ((hrows.map toHistoricalRow).filter fun hrow =>
          decide (hrow.latitude = a.latitude ∧ hrow.longitude = a.longitude)).map
          fun hrow => mkFinalRow a hrow := by
  unfold append_historical_data at h
  cases hr : get_raw_weather_df_hist resp with
  | error e => rw [hr] at h; exact absurd h (by simp)
  | ok hrows =>
    rw [hr] at h
    exact ⟨hrows, rfl, by injection h with h; exact h.symm⟩

theorem get_weather_data_ok {geocode : String → Option GeoLocation}
    {cities : List String} {resp : Response} {histResp : HistResponse} {m : Int}
    {out : List CityRecord × List WeatherInsightRecord}
    (h : get_weather_data geocode cities resp histResp m = .ok out) :
    ∃ t final, load_aggregate_weather_data geocode cities resp m = .ok t ∧
      append_historical_data t histResp = .ok final ∧
      out.1 = final.map FinalRow.toCity ∧ out.2 = final.map FinalRow.toInsight := by
  unfold get_weather_data at h
  split at h
  · exact absurd h (by simp)
  · rename_i t hl
    split at h
    · exact absurd h (by simp)
    · rename_i final ha
      injection h with h
      subst h
      exact ⟨t, final, hl, ha, rfl, rfl⟩

/-! ## The selection gate and the groupby keys -/

theorem gate_iff {a : AvgTempRow} :
    gate a = true ↔
      a.avg_temp_last_week < AVERAGE_TEMP_THRESHOLD ∧
        ELEVATION_THRESHOLD < a.elevation := by
  simp [gate]

theorem mem_filtered_temps_of {avgs : List AvgTempRow} {a : AvgTempRow} :
    a ∈ filtered_temps_of avgs ↔ a ∈ avgs ∧ gate a = true := by
  simp [filtered_temps_of, List.mem_filter]

/-- The groupby of stage A emits exactly one row per distinct location key
of its input, in particular its key column is the deduplicated key list. -/
theorem avg_temps_map_key (rows : List WeatherRow) :
    (avg_temps_of rows).map AvgTempRow.key = (rows.map WeatherRow.key).dedup := by
  unfold avg_temps_of
  rw [List.map_map]
  have h : (AvgTempRow.key ∘ fun k : LocKey =>
      ({ latitude := k.latitude, longitude := k.longitude, elevation := k.elevation,
         avg_temp_last_week :=
           meanList ((rows.filter fun r => decide (WeatherRow.key r = k)).map
             WeatherRow.temperature_2m) } : AvgTempRow)) = id := by
    funext k
    rfl
  rw [h, List.map_id]

theorem nodup_avg_keys (rows : List WeatherRow) :
    ((avg_temps_of rows).map AvgTempRow.key).Nodup := by
  rw [avg_temps_map_key]
  exact List.nodup_dedup _

theorem nodup_filtered_temps_keys (df : List WeatherRow) (m : Int) :
    ((filtered_temps_df df m).map AvgTempRow.key).Nodup := by
  have h := nodup_avg_keys (last_week_df df m)
  exact List.Nodup.sublist
    (List.Sublist.map AvgTempRow.key (List.filter_sublist _)) h

/-- Filtering a list on one value of an injectively mapped key keeps
exactly the matching element. -/
theorem filter_key_eq_singleton {α β : Type} [DecidableEq β] {l : List α}
    {f : α → β} (hnd : (l.map f).Nodup) {a : α} (ha : a ∈ l) {k : β}
    (hk : f a = k) : l.filter (fun x => decide (f x = k)) = [a] := by
  induction l with
  | nil => cases ha
  | cons b t ih =>
    rw [List.map_cons, List.nodup_cons] at hnd
    obtain ⟨hb, hndt⟩ := hnd
    rcases List.mem_cons.mp ha with hab | hat
    · subst hab
      have hfb : decide (f a = k) = true := by simp [hk]
      rw [List.filter_cons, if_pos hfb]
      have hnil : t.filter (fun x => decide (f x = k)) = [] := by
        refine List.filter_eq_nil_iff.mpr fun x hx => ?_
        simp only [decide_eq_true_eq]
        intro hfx
        apply hb
        have hfa : f a = f x := by rw [hk, hfx]
        rw [hfa]
        exact List.mem_map_of_mem f hx
      rw [hnil]
    · have hfb : ¬(decide (f b = k) = true) := by
        simp only [decide_eq_true_eq]
        intro hfbk
        apply hb
        have hba : f b = f a := by rw [hfbk, hk]
        rw [hba]
        exact List.mem_map_of_mem f hat
      rw [List.filter_cons, if_neg hfb]
      exact ih hndt hat

/-- Members of a list with nodup mapped keys are determined by their key. -/
theorem key_determines {α β : Type} [DecidableEq β] {l : List α} {f : α → β}
    (hnd : (l.map f).Nodup) {a b : α} (ha : a ∈ l) (hb : b ∈ l)
    (hab : f a = f b) : a = b := by
  have h1 := filter_key_eq_singleton hnd ha rfl
  have h2 : b ∈ l.filter (fun x => decide (f x = f a)) :=
    List.mem_filter.mpr ⟨hb, by simp [hab]⟩
  rw [h1] at h2
  exact (List.mem_singleton.mp h2).symm

/-- Every surviving aggregated row carries gate-compatible statistics:
this is the heart of the selection-gate invariant. -/
theorem mem_aggregate_gate {df : List WeatherRow} {m : Int} {o : AggRow}
    (ho : o ∈ aggregate_weather df m) :
    o.avg_temp_last_week < AVERAGE_TEMP_THRESHOLD ∧
      ELEVATION_THRESHOLD < o.elevation := by
  obtain ⟨k, hk, rfl⟩ := mem_aggregate_weather.mp ho
  obtain ⟨r, hr, rfl⟩ := List.mem_map.mp hk
  have hrf := mem_future_df.mp (by simpa [aggregated_df] using hr)
  obtain ⟨w, _, a, ha, hkey, rfl⟩ := mem_merge_on_location.mp hrf.1
  have hg := (mem_filtered_temps_of.mp (by simpa [filtered_temps_df] using ha)).2
  have hga := gate_iff.mp hg
  have helev : a.elevation = w.elevation := by
    have := congrArg LocKey.elevation hkey
    simpa [AvgTempRow.key, WeatherRow.key] using this
  exact ⟨hga.1, by simpa [mkAggRow, MergedRow.fullKey, mkMergedRow, ← helev]
    using hga.2⟩

theorem coordString_ten : coordinateString 10 = "10" := by decide

theorem coordString_twenty : coordinateString 20 = "20" := by decide

theorem exRaw_eval : get_raw_weather_df exResp = .ok exRows := by
  rfl

theorem exLoad_eval :
    load_aggregate_weather_data exGeocode ["Kyiv"] exResp 0 = .ok [exAggRow] := by
  norm_num [load_aggregate_weather_data, create_coordinates_dict, exGeocode,
    exRaw_eval, aggregate_weather, aggregated_df, filtered_temps_df,
    filtered_temps_of, avg_temps_of, last_week_df, gate, merge_on_location,
    future_df, meanList, WeatherRow.key, AvgTempRow.key, MergedRow.fullKey,
    mkMergedRow, mkAggRow, exRows, exRow, exKey, exAggRow, List.dedup,
    List.filter_cons, AVERAGE_TEMP_THRESHOLD, ELEVATION_THRESHOLD]

theorem exRows_eq : (exResp.json.map coerceCoordinates).flatMap explodeRows = exRows := by
  decide

theorem exRun_eval :
    get_weather_data exGeocode ["Kyiv"] exResp exHistResp 0 =
      .ok ([exCity], [exInsight]) := by
  norm_num [get_weather_data, exLoad_eval, append_historical_data,
    get_raw_weather_df_hist, HistResponse.ok, exHistResp, exHistLoc,
    explodeHistRows, toHistoricalRow, mkFinalRow, FinalRow.toCity,
    FinalRow.toInsight, exAggRow, exCity, exInsight, List.filter_cons,
    coordString_ten, coordString_twenty]

/-! ## The claims -/

/-- Claim C1: every row of the table returned by
`load_aggregate_weather_data` satisfies the selection gate,
`avg_temp_last_week < 20` and `elevation > 50`, and consequently the gate
also holds of the columns that survive into the two final output tables of
`get_weather_data`. -/
theorem claim_c1 :
    (∀ geocode cities resp m t,
        load_aggregate_weather_data geocode cities resp m = .ok t →
        ∀ o ∈ t, o.avg_temp_last_week < AVERAGE_TEMP_THRESHOLD ∧
          ELEVATION_THRESHOLD < o.elevation)
    ∧ (∀ geocode cities resp histResp m out,
        get_weather_data geocode cities resp histResp m = .ok out →
        (∀ c ∈ out.1, ELEVATION_THRESHOLD < c.elevation) ∧
        (∀ i ∈ out.2, i.avg_temp_last_week < AVERAGE_TEMP_THRESHOLD)) := by
  constructor
  · intro g cs resp m t h o ho
    obtain ⟨df, _, rfl⟩ := load_aggregate_ok h
    exact mem_aggregate_gate ho
  · intro g cs resp hresp m out h
    obtain ⟨t, final, hl, ha, h1, h2⟩ := get_weather_data_ok h
    obtain ⟨df, _, rfl⟩ := load_aggregate_ok hl
    obtain ⟨hrows, _, rfl⟩ := append_historical_ok ha
    constructor
    · intro c hc
      rw [h1] at hc
      obtain ⟨f, hf, rfl⟩ := List.mem_map.mp hc
      obtain ⟨a, haAgg, hrow, _, _, _, rfl⟩ := mem_joined.mp hf
      have hg := mem_aggregate_gate haAgg
      simpa [FinalRow.toCity, mkFinalRow] using hg.2
    · intro i hi
      rw [h2] at hi
      obtain ⟨f, hf, rfl⟩ := List.mem_map.mp hi
      obtain ⟨a, haAgg, hrow, _, _, _, rfl⟩ := mem_joined.mp hf
      have hg := mem_aggregate_gate haAgg
      simpa [FinalRow.toInsight, mkFinalRow] using hg.1

/-- Witness for C1 at the concrete run. -/
theorem claim_c1_witness :
    exAggRow.avg_temp_last_week < AVERAGE_TEMP_THRESHOLD ∧
      ELEVATION_THRESHOLD < exAggRow.elevation :=
  claim_c1.1 exGeocode ["Kyiv"] exResp 0 [exAggRow] exLoad_eval exAggRow
    (List.mem_singleton.mpr rfl)

/-- Claim C2: the past/future split is closed-open at local midnight: a row
feeds the past window exactly when its timestamp is strictly before
midnight, a merged row feeds the future window exactly when its timestamp
is at or after midnight, and a row timestamped exactly at midnight is
classified as future, never past. -/
theorem claim_c2 (df : List WeatherRow) (m : Int) (r : WeatherRow)
    (mg : List MergedRow) (x : MergedRow) :
    (r ∈ last_week_df df m ↔ r ∈ df ∧ r.time < m) ∧
    (x ∈ future_df mg m ↔ x ∈ mg ∧ m ≤ x.time) ∧
    (r.time = m → r ∉ last_week_df df m) ∧
    (x.time = m → x ∈ mg → x ∈ future_df mg m) := by
  refine ⟨mem_last_week_df, mem_future_df, ?_, ?_⟩
  · intro ht hmem
    exact absurd (mem_last_week_df.mp hmem).2 (by rw [ht]; exact lt_irrefl m)
  · intro ht hmem
    exact mem_future_df.mpr ⟨hmem, le_of_eq ht.symm⟩

/-- Witness for C2: a sample at exactly midnight is excluded from the past
window and kept by the future window. -/
theorem claim_c2_witness :
    exRow 0 12 ∉ last_week_df [exRow 0 12] 0 ∧
      exMerged ∈ future_df [exMerged] 0 :=
  ⟨(claim_c2 [exRow 0 12] 0 (exRow 0 12) [exMerged] exMerged).2.2.1 rfl,
   (claim_c2 [exRow 0 12] 0 (exRow 0 12) [exMerged] exMerged).2.2.2 rfl
     (List.mem_singleton.mpr rfl)⟩

/-- Claim C3: the two output tables of `get_weather_data` are projections
of one final frame, so they have equal row counts and pointwise equal
(latitude, longitude) key columns. -/
theorem claim_c3 (geocode : String → Option GeoLocation) (cities : List String)
    (resp : Response) (histResp : HistResponse) (m : Int)
    (out : List CityRecord × List WeatherInsightRecord)
    (h : get_weather_data geocode cities resp histResp m = .ok out) :
    out.1.length = out.2.length ∧
      out.1.map (fun c => (c.latitude, c.longitude)) =
        out.2.map (fun i => (i.latitude, i.longitude)) := by
  obtain ⟨t, final, _, _, h1, h2⟩ := get_weather_data_ok h
  rw [h1, h2]
  constructor
  · simp
  · rw [List.map_map, List.map_map]
    rfl

/-- Witness for C3 at the concrete run. -/
theorem claim_c3_witness :
    ([exCity].length = [exInsight].length) ∧
      [exCity].map (fun c => (c.latitude, c.longitude)) =
        [exInsight].map (fun i => (i.latitude, i.longitude)) :=
  claim_c3 exGeocode ["Kyiv"] exResp exHistResp 0 ([exCity], [exInsight])
    exRun_eval

/-- Claim C6: latitude and longitude are coerced to strings before the
explode, so every exploded row of a table returned by `get_raw_weather_df`
carries its source location's coordinate strings, and any two rows of the
same source location have identical join keys. -/
theorem claim_c6 (resp : Response) (rows : List WeatherRow)
    (h : get_raw_weather_df resp = .ok rows) (loc : RawLocation)
    (hloc : loc ∈ resp.json) :
    (∀ r ∈ explodeRows (coerceCoordinates loc),
        r ∈ rows ∧ r.latitude = coordinateString loc.latitude ∧
          r.longitude = coordinateString loc.longitude) ∧
    (∀ r₁ ∈ explodeRows (coerceCoordinates loc),
      ∀ r₂ ∈ explodeRows (coerceCoordinates loc),
        r₁.latitude = r₂.latitude ∧ r₁.longitude = r₂.longitude) := by
  have hrows := get_raw_ok h
  have hfield : ∀ r ∈ explodeRows (coerceCoordinates loc),
      r.latitude = coordinateString loc.latitude ∧
        r.longitude = coordinateString loc.longitude := by
    intro r hr
    obtain ⟨p, _, rfl⟩ := List.mem_map.mp hr
    exact ⟨rfl, rfl⟩
  constructor
  · intro r hr
    refine ⟨?_, hfield r hr⟩
    rw [hrows]
    exact List.mem_flatMap.mpr
      ⟨coerceCoordinates loc, List.mem_map_of_mem coerceCoordinates hloc, hr⟩
  · intro r₁ h₁ r₂ h₂
    obtain ⟨l1, l2⟩ := hfield r₁ h₁
    obtain ⟨n1, n2⟩ := hfield r₂ h₂
    exact ⟨l1.trans n1.symm, l2.trans n2.symm⟩

/-- Witness for C6 at the concrete run. -/
theorem claim_c6_witness :
    exRow (-1) 10 ∈ exRows ∧
      (exRow (-1) 10).latitude = coordinateString exLoc.latitude ∧
      (exRow (-1) 10).longitude = coordinateString exLoc.longitude :=
  (claim_c6 exResp exRows exRaw_eval exLoc (List.mem_singleton.mpr rfl)).1
    (exRow (-1) 10) (by decide)

/-- Claim C7: the coordinate resolver returns one latitude and one
longitude per input city, in input order, whenever every city geocodes;
and aborts with a resolution error naming an unresolvable city otherwise.
It never skips a city. -/
theorem claim_c7 (geocode : String → Option GeoLocation) (cities : List String) :
    (∀ lats lots, create_coordinates_dict geocode cities = .ok (lats, lots) →
        lats.length = cities.length ∧ lots.length = cities.length)
    ∧ ((∀ c ∈ cities, (geocode c).isSome) →
        create_coordinates_dict geocode cities =
          .ok (cities.map fun c => ((geocode c).getD ⟨0, 0⟩).latitude,
               cities.map fun c => ((geocode c).getD ⟨0, 0⟩).longitude))
    ∧ ((∃ c ∈ cities, geocode c = none) →
        ∃ c ∈ cities, geocode c = none ∧
          create_coordinates_dict geocode cities = .error (.resolution c)) := by
  refine ⟨?_, ?_, ?_⟩
  · induction cities with
    | nil =>
      intro lats lots h
      simp only [create_coordinates_dict] at h
      injection h with h
      injection h with h1 h2
      subst h1
      subst h2
      exact ⟨rfl, rfl⟩
    | cons c rest ih =>
      intro lats lots h
      simp only [create_coordinates_dict] at h
      cases hg : geocode c with
      | none => rw [hg] at h; exact absurd h (by simp)
      | some loc =>
        rw [hg] at h
        cases hr : create_coordinates_dict geocode rest with
        | error e => rw [hr] at h; exact absurd h (by simp)
        | ok p =>
          rw [hr] at h
          obtain ⟨l1, l2⟩ := p
          injection h with h
          injection h with h1 h2
          subst h1
          subst h2
          obtain ⟨hl1, hl2⟩ := ih l1 l2 hr
          simp [hl1, hl2]
  · induction cities with
    | nil => intro _; rfl
    | cons c rest ih =>
      intro hall
      obtain ⟨loc, hg⟩ :=
        Option.isSome_iff_exists.mp (hall c (List.mem_cons_self c rest))
      have hrest := ih fun x hx => hall x (List.mem_cons_of_mem c hx)
      simp only [create_coordinates_dict, hg, hrest, List.map_cons]
      simp
  · induction cities with
    | nil => rintro ⟨c, hc, _⟩; cases hc
    | cons c rest ih =>
      rintro ⟨c0, hc0, hnone⟩
      cases hg : geocode c with
      | none =>
        exact ⟨c, List.mem_cons_self c rest, hg, by
          simp only [create_coordinates_dict, hg]⟩
      | some loc =>
        have hc0r : c0 ∈ rest := by
          rcases List.mem_cons.mp hc0 with hc | hc
          · subst hc; rw [hnone] at hg; cases hg
          · exact hc
        obtain ⟨c1, hc1, hn1, herr⟩ := ih ⟨c0, hc0r, hnone⟩
        exact ⟨c1, List.mem_cons_of_mem c hc1, hn1, by
          simp only [create_coordinates_dict, hg, herr]⟩

/-- Witness for C7: the concrete geocoder resolves the single-city list to
one coordinate pair. -/
theorem claim_c7_witness :
    create_coordinates_dict exGeocode ["Kyiv"] = .ok ([10], [20]) := by
  have h := (claim_c7 exGeocode ["Kyiv"]).2.1 (by decide)
  simpa [exGeocode] using h

/-- Claim C8 (divergence exhibited): on a non-success response the fetcher
aborts, but the message of the raised error interpolates `response.text`
(the body) even though it announces a status code — the transport status
itself (503 here) is not what the error carries. -/
theorem claim_c8_code_bug :
    get_raw_weather_df exBadResp =
      .error (.fetch "Request failed with status code Service Unavailable") ∧
      "Request failed with status code Service Unavailable" ≠
        "Request failed with status code " ++ toString exBadResp.status_code := by
  constructor
  · rfl
  · decide

/-- Claim C9: the pipeline holds no hidden state — the outputs of
`get_weather_data` are a pure function of the geocoder, the city list, the
two upstream responses, and the run date's midnight, so identical inputs
give identical outputs. -/
theorem claim_c9 (g₁ g₂ : String → Option GeoLocation) (c₁ c₂ : List String)
    (r₁ r₂ : Response) (h₁ h₂ : HistResponse) (m₁ m₂ : Int)
    (hg : g₁ = g₂) (hc : c₁ = c₂) (hr : r₁ = r₂) (hh : h₁ = h₂)
    (hm : m₁ = m₂) :
    get_weather_data g₁ c₁ r₁ h₁ m₁ = get_weather_data g₂ c₂ r₂ h₂ m₂ := by
  subst hg hc hr hh hm
  rfl

/-- Witness for C9 at the concrete run. -/
theorem claim_c9_witness :
    get_weather_data exGeocode ["Kyiv"] exResp exHistResp 0 =
      get_weather_data exGeocode ["Kyiv"] exResp exHistResp 0 :=
  claim_c9 exGeocode exGeocode ["Kyiv"] ["Kyiv"] exResp exResp exHistResp
    exHistResp 0 0 rfl rfl rfl rfl rfl

/-- Every aggregated output row's location both passed the gate and has at
least one future-window observation backing it. -/
theorem mem_aggregate_key {df : List WeatherRow} {m : Int} {o : AggRow}
    (ho : o ∈ aggregate_weather df m) :
    passes_gate df m (AggRow.key o) ∧
      ∃ w ∈ df, WeatherRow.key w = AggRow.key o ∧ m ≤ w.time := by
  obtain ⟨k, hk, rfl⟩ := mem_aggregate_weather.mp ho
  obtain ⟨r, hr, rfl⟩ := List.mem_map.mp hk
  have hrf := mem_future_df.mp (by simpa [aggregated_df] using hr)
  obtain ⟨w, hw, a, ha, hkey, rfl⟩ := mem_merge_on_location.mp hrf.1
  have hko : AggRow.key (mkAggRow (aggregated_df df m)
      (MergedRow.fullKey (mkMergedRow w a))) = WeatherRow.key w := rfl
  constructor
  · unfold passes_gate
    rw [hko, ← hkey]
    exact List.mem_map_of_mem AvgTempRow.key ha
  · exact ⟨w, hw, hko.symm, hrf.2⟩

/-- Claim C10: a location that passes the selection gate but has no
future-window rows is silently absent from the aggregated table — the
future filter followed by the groupby produces no group for it, rather
than a null mean. -/
theorem claim_c10 (geocode : String → Option GeoLocation) (cities : List String)
    (resp : Response) (m : Int) (df : List WeatherRow) (t : List AggRow)
    (hdf : get_raw_weather_df resp = .ok df)
    (h : load_aggregate_weather_data geocode cities resp m = .ok t)
    (k : LocKey) (_hgate : passes_gate df m k)
    (hfut : futureRows df m k = []) :
    ∀ o ∈ t, AggRow.key o ≠ k := by
  obtain ⟨df2, hdf2, rfl⟩ := load_aggregate_ok h
  rw [hdf] at hdf2
  injection hdf2 with e
  subst e
  intro o ho hko
  obtain ⟨_, w, hw, hkw, htw⟩ := mem_aggregate_key ho
  have hmem : w ∈ futureRows df m k :=
    mem_futureRows.mpr ⟨hw, by rw [hkw, hko], htw⟩
  rw [hfut] at hmem
  cases hmem

theorem exRawB_eval : get_raw_weather_df exRespB = .ok exRowsB := by
  rfl

theorem exLoadB_eval :
    load_aggregate_weather_data exGeocode ["Kyiv"] exRespB 0 = .ok [exAggRow] := by
  with_unfolding_all rfl

theorem exGateB : passes_gate exRowsB 0 exKeyB := by
  unfold passes_gate
  have h : (filtered_temps_df exRowsB 0).map AvgTempRow.key = [exKey, exKeyB] := by
    with_unfolding_all rfl
  rw [h]
  simp [exKey, exKeyB]

theorem exNoFutureB : futureRows exRowsB 0 exKeyB = [] := by
  decide

/-- Witness for C10: in the two-location run, the location (30, 40) passes
the gate but has no future sample, and the single surviving aggregated row
is not it. -/
theorem claim_c10_witness : AggRow.key exAggRow ≠ exKeyB :=
  claim_c10 exGeocode ["Kyiv"] exRespB 0 exRowsB [exAggRow] exRawB_eval
    exLoadB_eval exKeyB exGateB exNoFutureB exAggRow (List.mem_singleton.mpr rfl)

/-- Claim C5: the historical enrichment is an inner join on
(latitude, longitude): every row of either final output is backed by a row
of the raw historical frame with the same key, and an aggregated location
with no matching historical row is absent from both final outputs. -/
theorem claim_c5 (geocode : String → Option GeoLocation) (cities : List String)
    (resp : Response) (histResp : HistResponse) (m : Int)
    (out : List CityRecord × List WeatherInsightRecord) (t : List AggRow)
    (hrows : List HistRow)
    (h : get_weather_data geocode cities resp histResp m = .ok out)
    (hl : load_aggregate_weather_data geocode cities resp m = .ok t)
    (hh : get_raw_weather_df_hist histResp = .ok hrows) :
    (∀ c ∈ out.1, ∃ hr ∈ hrows,
        hr.latitude = c.latitude ∧ hr.longitude = c.longitude) ∧
    (∀ i ∈ out.2, ∃ hr ∈ hrows,
        hr.latitude = i.latitude ∧ hr.longitude = i.longitude) ∧
    (∀ a ∈ t,
      (∀ hr ∈ hrows, ¬(hr.latitude = a.latitude ∧ hr.longitude = a.longitude)) →
      (∀ c ∈ out.1, ¬(c.latitude = a.latitude ∧ c.longitude = a.longitude)) ∧
      (∀ i ∈ out.2, ¬(i.latitude = a.latitude ∧ i.longitude = a.longitude))) := by
  obtain ⟨t2, final, hl2, ha, h1, h2⟩ := get_weather_data_ok h
  rw [hl] at hl2
  injection hl2 with e
  subst e
  obtain ⟨hrows2, hh2, rfl⟩ := append_historical_ok ha
  rw [hh] at hh2
  injection hh2 with e2
  subst e2
  have hfinal : ∀ f, f ∈ (t.flatMap fun a =>
      ((hrows.map toHistoricalRow).filter fun hrow =>
        decide (hrow.latitude = a.latitude ∧ hrow.longitude = a.longitude)).map
        fun hrow => mkFinalRow a hrow) →
      ∃ a ∈ t, ∃ hraw ∈ hrows,
        hraw.latitude = a.latitude ∧ hraw.longitude = a.longitude ∧
          f = mkFinalRow a (toHistoricalRow hraw) := by
    intro f hf
    obtain ⟨a, hat, hrow, hhm, hlat, hlon, rfl⟩ := mem_joined.mp hf
    obtain ⟨hraw, hhraw, rfl⟩ := List.mem_map.mp hhm
    exact ⟨a, hat, hraw, hhraw, hlat, hlon, rfl⟩
  refine ⟨?_, ?_, ?_⟩
  · intro c hc
    rw [h1] at hc
    obtain ⟨f, hf, rfl⟩ := List.mem_map.mp hc
    obtain ⟨a, _, hraw, hhraw, hlat, hlon, rfl⟩ := hfinal f hf
    exact ⟨hraw, hhraw, hlat, hlon⟩
  · intro i hi
    rw [h2] at hi
    obtain ⟨f, hf, rfl⟩ := List.mem_map.mp hi
    obtain ⟨a, _, hraw, hhraw, hlat, hlon, rfl⟩ := hfinal f hf
    exact ⟨hraw, hhraw, hlat, hlon⟩
  · intro a hat hnomatch
    constructor
    · intro c hc
      rw [h1] at hc
      obtain ⟨f, hf, rfl⟩ := List.mem_map.mp hc
      obtain ⟨a2, _, hraw, hhraw, hlat, hlon, rfl⟩ := hfinal f hf
      rintro ⟨hca, hcb⟩
      exact hnomatch hraw hhraw
        ⟨by rw [hlat]; exact hca, by rw [hlon]; exact hcb⟩
    · intro i hi
      rw [h2] at hi
      obtain ⟨f, hf, rfl⟩ := List.mem_map.mp hi
      obtain ⟨a2, _, hraw, hhraw, hlat, hlon, rfl⟩ := hfinal f hf
      rintro ⟨hca, hcb⟩
      exact hnomatch hraw hhraw
        ⟨by rw [hlat]; exact hca, by rw [hlon]; exact hcb⟩

/-! ## Stage B: one row per location (claim C4 machinery) -/

theorem merge_on_location_cons (w : WeatherRow) (rest : List WeatherRow)
    (filt : List AvgTempRow) :
    merge_on_location (w :: rest) filt =
      ((filt.filter fun x => decide (AvgTempRow.key x = WeatherRow.key w)).map
        (mkMergedRow w)) ++ merge_on_location rest filt := by
  simp [merge_on_location]

theorem future_df_append (l₁ l₂ : List MergedRow) (m : Int) :
    future_df (l₁ ++ l₂) m = future_df l₁ m ++ future_df l₂ m := by
  simp [future_df]

/-- The stage-B group of the full key built from a gate-surviving location
collects exactly the future-window temperatures of that location, in
order.  This is the quantitative heart of claim C4: the re-join pairs each
observation row of a surviving location with its unique `filtered_temps`
row, so filtering the future frame on the full group key recovers
precisely the location's future observations. -/
theorem future_filter_fullKey {filt : List AvgTempRow}
    (hnd : (filt.map AvgTempRow.key).Nodup) {a : AvgTempRow} (ha : a ∈ filt)
    {k : LocKey} (hk : AvgTempRow.key a = k) (tz0 : String) (m : Int) :
    ∀ df : List WeatherRow,
      (∀ w ∈ df, WeatherRow.key w = k → w.timezone_abbreviation = tz0) →
      ((future_df (merge_on_location df filt) m).filter fun r =>
          decide (MergedRow.fullKey r =
            ⟨k.latitude, k.longitude, k.elevation, tz0, a.avg_temp_last_week⟩)).map
        MergedRow.temperature_2m
      = (futureRows df m k).map WeatherRow.temperature_2m := by
  intro df
  induction df with
  | nil => intro _; rfl
  | cons w rest ih =>
    intro htz
    have htail := ih fun x hx hxk => htz x (List.mem_cons_of_mem w hx) hxk
    have hhead : ((future_df ((filt.filter fun x =>
        decide (AvgTempRow.key x = WeatherRow.key w)).map (mkMergedRow w))
          m).filter fun r => decide (MergedRow.fullKey r =
            ⟨k.latitude, k.longitude, k.elevation, tz0,
              a.avg_temp_last_week⟩)).map MergedRow.temperature_2m
        = if WeatherRow.key w = k ∧ m ≤ w.time then [w.temperature_2m]
          else [] := by
      by_cases hw : WeatherRow.key w = k
      · subst hw
        rw [filter_key_eq_singleton hnd ha hk]
        have htzw : w.timezone_abbreviation = tz0 :=
          htz w (List.mem_cons_self w rest) rfl
        by_cases ht : m ≤ w.time
        · simp [future_df, List.filter_cons, ht, MergedRow.fullKey,
            mkMergedRow, WeatherRow.key, htzw]
        · simp [future_df, List.filter_cons, ht, mkMergedRow]
      · have hcond : ¬(WeatherRow.key w = k ∧ m ≤ w.time) := fun hc => hw hc.1
        rw [if_neg hcond]
        have hnil : ((future_df ((filt.filter fun x =>
            decide (AvgTempRow.key x = WeatherRow.key w)).map (mkMergedRow w))
              m).filter fun r => decide (MergedRow.fullKey r =
                ⟨k.latitude, k.longitude, k.elevation, tz0,
                  a.avg_temp_last_week⟩)) = [] := by
          refine List.filter_eq_nil_iff.mpr ?_
          intro r hr
          have hrm := (mem_future_df.mp hr).1
          obtain ⟨x, _, rfl⟩ := List.mem_map.mp hrm
          simp only [decide_eq_true_eq]
          intro hfk
          apply hw
          have h1 : w.latitude = k.latitude := congrArg FullKey.latitude hfk
          have h2 : w.longitude = k.longitude := congrArg FullKey.longitude hfk
          have h3 : w.elevation = k.elevation := congrArg FullKey.elevation hfk
          have hkey : WeatherRow.key w =
              ⟨k.latitude, k.longitude, k.elevation⟩ := by
            simp [WeatherRow.key, h1, h2, h3]
          exact hkey
        rw [hnil]
        rfl
    rw [merge_on_location_cons, future_df_append, List.filter_append,
      List.map_append, htail, hhead]
    by_cases hcond : WeatherRow.key w = k ∧ m ≤ w.time
    · simp only [if_pos hcond, futureRows, List.filter_cons,
        decide_eq_true_eq, hcond, if_pos, List.map_cons]
      simp [futureRows]
    · simp only [if_neg hcond, futureRows, List.filter_cons]
      have hdec : ¬(decide (WeatherRow.key w = k ∧ m ≤ w.time) = true) := by
        simpa using hcond
      rw [if_neg hdec]
      simp [futureRows]

/-- Under the data-model invariant that a location key determines its
timezone string, the aggregated table holds at most one row per location
key. -/
theorem aggregate_key_unique {df : List WeatherRow} {m : Int}
    (htz : ∀ r₁ ∈ df, ∀ r₂ ∈ df, WeatherRow.key r₁ = WeatherRow.key r₂ →
      r₁.timezone_abbreviation = r₂.timezone_abbreviation) :
    ∀ o₁ ∈ aggregate_weather df m, ∀ o₂ ∈ aggregate_weather df m,
      AggRow.key o₁ = AggRow.key o₂ → o₁ = o₂ := by
  intro o₁ h₁ o₂ h₂ hkey
  obtain ⟨k₁, hk₁, rfl⟩ := mem_aggregate_weather.mp h₁
  obtain ⟨r₁, hr₁, rfl⟩ := List.mem_map.mp hk₁
  obtain ⟨w₁, hw₁, a₁, ha₁, hka₁, rfl⟩ :=
    (mem_merge_on_location.mp (mem_future_df.mp
      (by simpa [aggregated_df] using hr₁)).1)
  obtain ⟨k₂, hk₂, rfl⟩ := mem_aggregate_weather.mp h₂
  obtain ⟨r₂, hr₂, rfl⟩ := List.mem_map.mp hk₂
  obtain ⟨w₂, hw₂, a₂, ha₂, hka₂, rfl⟩ :=
    (mem_merge_on_location.mp (mem_future_df.mp
      (by simpa [aggregated_df] using hr₂)).1)
  have hkk : WeatherRow.key w₁ = WeatherRow.key w₂ := hkey
  have htzw : w₁.timezone_abbreviation = w₂.timezone_abbreviation :=
    htz w₁ hw₁ w₂ hw₂ hkk
  have haa : a₁ = a₂ :=
    key_determines (nodup_filtered_temps_keys df m) ha₁ ha₂
      (by rw [hka₁, hka₂]; exact hkk)
  have h1 : w₁.latitude = w₂.latitude := congrArg LocKey.latitude hkk
  have h2 : w₁.longitude = w₂.longitude := congrArg LocKey.longitude hkk
  have h3 : w₁.elevation = w₂.elevation := congrArg LocKey.elevation hkk
  have hfk : MergedRow.fullKey (mkMergedRow w₁ a₁) =
      MergedRow.fullKey (mkMergedRow w₂ a₂) := by
    simp [MergedRow.fullKey, mkMergedRow, h1, h2, h3, htzw, haa]
  rw [hfk]

/-- Under the same invariant, every gate-surviving location with at least
one future observation produces a row whose `avg_temp_next_week` is the
arithmetic mean of exactly its future-window temperatures. -/
theorem aggregate_key_exists {df : List WeatherRow} {m : Int}
    (htz : ∀ r₁ ∈ df, ∀ r₂ ∈ df, WeatherRow.key r₁ = WeatherRow.key r₂ →
      r₁.timezone_abbreviation = r₂.timezone_abbreviation)
    {k : LocKey} (hgate : passes_gate df m k)
    (hfut : futureRows df m k ≠ []) :
    ∃ o ∈ aggregate_weather df m, AggRow.key o = k ∧
      o.avg_temp_next_week =
        meanList ((futureRows df m k).map WeatherRow.temperature_2m) := by
  obtain ⟨a, ha, hak⟩ := List.mem_map.mp hgate
  obtain ⟨w0, hw0mem⟩ := List.exists_mem_of_ne_nil _ hfut
  obtain ⟨hw0, hw0k, hw0t⟩ := mem_futureRows.mp hw0mem
  have htz0 : ∀ x ∈ df, WeatherRow.key x = k →
      x.timezone_abbreviation = w0.timezone_abbreviation := by
    intro x hx hxk
    exact htz x hx w0 hw0 (by rw [hxk, hw0k])
  have hr : mkMergedRow w0 a ∈ aggregated_df df m := by
    unfold aggregated_df
    refine mem_future_df.mpr ⟨?_, hw0t⟩
    exact mem_merge_on_location.mpr
      ⟨w0, hw0, a, ha, by rw [hak, hw0k], rfl⟩
  have hfk : MergedRow.fullKey (mkMergedRow w0 a) =
      ⟨k.latitude, k.longitude, k.elevation, w0.timezone_abbreviation,
        a.avg_temp_last_week⟩ := by
    have h1 : w0.latitude = k.latitude := congrArg LocKey.latitude hw0k
    have h2 : w0.longitude = k.longitude := congrArg LocKey.longitude hw0k
    have h3 : w0.elevation = k.elevation := congrArg LocKey.elevation hw0k
    simp [MergedRow.fullKey, mkMergedRow, h1, h2, h3]
  refine ⟨mkAggRow (aggregated_df df m)
      ⟨k.latitude, k.longitude, k.elevation, w0.timezone_abbreviation,
        a.avg_temp_last_week⟩, ?_, rfl, ?_⟩
  · refine mem_aggregate_weather.mpr ⟨_, ?_, rfl⟩
    rw [← hfk]
    exact List.mem_map_of_mem MergedRow.fullKey hr
  · show meanList _ = meanList _
    congr 1
    exact future_filter_fullKey (nodup_filtered_temps_keys df m) ha hak
      w0.timezone_abbreviation m df htz0

/-- Claim C4: stage B groups by every non-temperature column and collapses
only the temporal dimension: under the data-model invariant that a
location key carries a single timezone string, the table returned by
`load_aggregate_weather_data` has exactly one row per location key that
passed the selection gate and has at least one future-window observation,
and that row's `avg_temp_next_week` is the arithmetic mean of the
location's future-window temperatures. -/
theorem claim_c4 (geocode : String → Option GeoLocation) (cities : List String)
    (resp : Response) (m : Int) (df : List WeatherRow) (t : List AggRow)
    (hdf : get_raw_weather_df resp = .ok df)
    (h : load_aggregate_weather_data geocode cities resp m = .ok t)
    (htz : ∀ r₁ ∈ df, ∀ r₂ ∈ df, WeatherRow.key r₁ = WeatherRow.key r₂ →
      r₁.timezone_abbreviation = r₂.timezone_abbreviation) :
    (∀ o₁ ∈ t, ∀ o₂ ∈ t, AggRow.key o₁ = AggRow.key o₂ → o₁ = o₂) ∧
    (∀ o ∈ t, passes_gate df m (AggRow.key o) ∧
      futureRows df m (AggRow.key o) ≠ []) ∧
    (∀ k, passes_gate df m k → futureRows df m k ≠ [] →
      ∃ o ∈ t, AggRow.key o = k ∧
        o.avg_temp_next_week =
          meanList ((futureRows df m k).map WeatherRow.temperature_2m)) := by
  obtain ⟨df2, hdf2, rfl⟩ := load_aggregate_ok h
  rw [hdf] at hdf2
  injection hdf2 with e
  subst e
  refine ⟨aggregate_key_unique htz, ?_, ?_⟩
  · intro o ho
    obtain ⟨hg, w, hw, hkw, htw⟩ := mem_aggregate_key ho
    exact ⟨hg, List.ne_nil_of_mem (mem_futureRows.mpr ⟨hw, hkw, htw⟩)⟩
  · intro k hg hf
    exact aggregate_key_exists htz hg hf

theorem exMain_gate : passes_gate exRows 0 exKey := by
  norm_num [passes_gate, filtered_temps_df, filtered_temps_of, avg_temps_of,
    last_week_df, gate, meanList, WeatherRow.key, AvgTempRow.key, exRows,
    exRow, exKey, List.dedup, List.filter_cons, AVERAGE_TEMP_THRESHOLD,
    ELEVATION_THRESHOLD]

/-- Witness for C4 at the concrete run. -/
theorem claim_c4_witness :
    ∃ o ∈ [exAggRow], AggRow.key o = exKey ∧
      o.avg_temp_next_week =
        meanList ((futureRows exRows 0 exKey).map WeatherRow.temperature_2m) :=
  (claim_c4 exGeocode ["Kyiv"] exResp 0 exRows [exAggRow] exRaw_eval
      exLoad_eval (by decide)).2.2 exKey exMain_gate (by decide)

theorem exHistRaw_eval : get_raw_weather_df_hist exHistResp = .ok exHistRows := by
  rfl

/-- Witness for C5 at the concrete run: the surviving city's key is backed
by a historical row. -/
theorem claim_c5_witness :
    ∃ hr ∈ exHistRows,
      hr.latitude = exCity.latitude ∧ hr.longitude = exCity.longitude :=
  (claim_c5 exGeocode ["Kyiv"] exResp exHistResp 0 ([exCity], [exInsight])
      [exAggRow] exHistRows exRun_eval exLoad_eval exHistRaw_eval).1 exCity
    (List.mem_singleton.mpr rfl)

end OpenMeteo
